import Mathlib

/-!
Shallow embedding of `scripts/quantize_model.py`.

The script is a straight-line command-line utility: it imports the
quantization library, resolves input/output paths under a fixed project
layout, checks that the input model exists, calls the external routine
`quantize_dynamic`, and reports sizes.  We model one run of the script as a
pure function of an environment that fixes everything external to it: the
project root, whether the library import succeeds, the file system before
the run (a map from path to file size in bytes), the behaviour of the
external quantization routine, and the file system after that routine has
run.  Python exceptions are modelled explicitly: `os.path.getsize` on a
missing path raises, and float division by zero raises a
`ZeroDivisionError` whose text is "float division by zero"; both are caught
by the script by the `except Exception` handler around the quantization
step.  Sizes in megabytes are modelled as rationals (the script divides
byte counts by 1024*1024 in floating point; all claims about the printed
numbers are stated up to the rounding of the output formatting, so the
exact rational values stand for the values handed to the format
specifiers).
-/

namespace QuantizeModel

/-- Weight type enumeration of the external quantization library
(`onnxruntime.quantization.QuantType`).  The script uses `QUInt8`;
`QInt8` is another member of the library enum included so that the choice
of weight type is an informative part of the model. -/
inductive QuantType where
  | QUInt8
  | QInt8
deriving DecidableEq, Repr

/-- Keyword arguments of one call to the external routine
`quantize_dynamic(model_input=..., model_output=..., weight_type=...)`. -/
structure QuantCall where
  model_input : String
  model_output : String
  weight_type : QuantType
deriving DecidableEq, Repr

/-- File-system operations.  The first two are the reads the script itself
performs (`os.path.exists`, `os.path.getsize`); the mutating ones are
included so that stating that the script performs no mutation is a
non-vacuous property. -/
inductive FsOp where
  | pathExists (p : String)
  | getsize (p : String)
  | write (p : String)
  | truncate (p : String)
  | delete (p : String)
deriving DecidableEq, Repr

/-- Whether a file-system operation mutates the file at its path. -/
def FsOp.mutates : FsOp → Bool
  | .pathExists _ => false
  | .getsize _ => false
  | .write _ => true
  | .truncate _ => true
  | .delete _ => true

/-- Everything external to one run of the script: the resolved project
root (`os.path.dirname` of the script directory), whether
`from onnxruntime.quantization import ...` succeeds, the file system
before the run as a partial map from absolute path to size in bytes, the
outcome of the external `quantize_dynamic` call (`Except.error e` models
the routine raising an exception whose text is `e`), and the file system
after that call returns or raises. -/
structure Env where
  root : String
  importOk : Bool
  fs : String → Option Nat
  quantResult : Except String Unit
  fsAfter : String → Option Nat

/-- Path `os.path.join(project_root, "app", "src", "main", "assets",
"models")`; `os.path.join` with the `/` separator is string
concatenation here. -/
def models_dir (root : String) : String :=
  root ++ "/app/src/main/assets/models"

/-- Path `os.path.join(models_dir, "comictextdetector.pt.onnx")`. -/
def input_model (root : String) : String :=
  models_dir root ++ "/comictextdetector.pt.onnx"

/-- Path `os.path.join(models_dir, "comictextdetector_quantized.onnx")`. -/
def output_model (root : String) : String :=
  models_dir root ++ "/comictextdetector_quantized.onnx"

/-- Observable outcome of one run: the process exit code, the purely
textual lines printed (paths interpolated), the numeric values handed to
the `:.1f` / `:.0f` format specifiers of the size and reduction prints
(`none` when the corresponding print statement was never reached), the
list of `quantize_dynamic` invocations in order, the file-system
operations the script itself performed, and the file system when the
process terminates. -/
structure RunResult where
  exitCode : Nat
  output : List String
  printedInputMB : Option ℚ
  printedOutputMB : Option ℚ
  printedReduction : Option ℚ
  calls : List QuantCall
  fsOps : List FsOp
  finalFs : String → Option Nat

/-- Text of the download instruction line printed when the input model is
missing. -/
def downloadUrl : String :=
  "https://github.com/zyddnys/manga-image-translator/releases"

/-- Message text of a Python `ZeroDivisionError` on float division. -/
def zeroDivMsg : String :=
  "float division by zero"

/-- Embedding of `main()` of `scripts/quantize_model.py`.  Each branch
mirrors one control path of the source: import failure exits 1; a missing
input model prints remediation text and exits 1; otherwise the input size
is read, `quantize_dynamic` is called once, and the `try` block either
completes (exit 0) or raises (the routine itself, the `os.path.getsize`
on a missing output, or the zero division when the input size is zero
bytes), in which case the handler prints the exception text and exits 1. -/
def main (env : Env) : RunResult :=
  if env.importOk then
    let inputPath := input_model env.root
    let outputPath := output_model env.root
    match env.fs inputPath with
    | none =>
      { exitCode := 1
        output := ["❌ Input model not found: " ++ inputPath,
                   "\nPlease download the model first:",
                   "1. Go to: " ++ downloadUrl,
                   "2. Download: comictextdetector.pt.onnx",
                   "3. Place it in: " ++ models_dir env.root]
        printedInputMB := none
        printedOutputMB := none
        printedReduction := none
        calls := []
        fsOps := [.pathExists inputPath]
        finalFs := env.fs }
    | some inBytes =>
      let input_size : ℚ := (inBytes : ℚ) / (1024 * 1024)
      let headerOut := ["📥 Input model: " ++ inputPath,
                        "\n⏳ Quantizing model (this may take a few minutes)..."]
      let call : QuantCall := ⟨inputPath, outputPath, QuantType.QUInt8⟩
      match env.quantResult with
      | .error e =>
        { exitCode := 1
          output := headerOut ++ ["\n❌ Quantization failed: " ++ e]
          printedInputMB := some input_size
          printedOutputMB := none
          printedReduction := none
          calls := [call]
          fsOps := [.pathExists inputPath, .getsize inputPath]
          finalFs := env.fsAfter }
      | .ok _ =>
        match env.fsAfter outputPath with
        | none =>
          { exitCode := 1
            output := headerOut ++
              ["\n❌ Quantization failed: No such file or directory: " ++ outputPath]
            printedInputMB := some input_size
            printedOutputMB := none
            printedReduction := none
            calls := [call]
            fsOps := [.pathExists inputPath, .getsize inputPath, .getsize outputPath]
            finalFs := env.fsAfter }
        | some outBytes =>
          let output_size : ℚ := (outBytes : ℚ) / (1024 * 1024)
          -- Python raises ZeroDivisionError exactly when input_size == 0.0,
          -- which holds exactly when the byte count is 0; the lemma
          -- input_size_eq_zero_iff below justifies testing the byte count.
          if inBytes = 0 then
            { exitCode := 1
              output := headerOut ++ ["\n❌ Quantization failed: " ++ zeroDivMsg]
              printedInputMB := some input_size
              printedOutputMB := none
              printedReduction := none
              calls := [call]
              fsOps := [.pathExists inputPath, .getsize inputPath, .getsize outputPath]
              finalFs := env.fsAfter }
          else
            let reduction : ℚ := (1 - output_size / input_size) * 100
            { exitCode := 0
              output := headerOut ++
                ["\n✅ Quantization complete!",
                 "📤 Output model: " ++ outputPath,
                 "\n🎉 The app will automatically use the quantized model!"]
              printedInputMB := some input_size
              printedOutputMB := some output_size
              printedReduction := some reduction
              calls := [call]
              fsOps := [.pathExists inputPath, .getsize inputPath, .getsize outputPath]
              finalFs := env.fsAfter }
  else
    { exitCode := 1
      output := ["❌ Missing required packages. Install them with:",
                 "   pip install onnxruntime onnx"]
      printedInputMB := none
      printedOutputMB := none
      printedReduction := none
      calls := []
      fsOps := []
      finalFs := env.fs }

/-- Substring containment on strings, as containment of the underlying
character lists. -/
def strContains (hay needle : String) : Prop :=
  needle.data <:+: hay.data

instance (hay needle : String) : Decidable (strContains hay needle) :=
  List.decidableInfix needle.data hay.data

/-- Some line of the printed output contains the given text. -/
def outputContains (r : RunResult) (needle : String) : Prop :=
  ∃ line ∈ r.output, strContains line needle

instance (r : RunResult) (needle : String) : Decidable (outputContains r needle) := by
  unfold outputContains
  infer_instance

/-- The run reaches the final success print and `sys.exit` is never
called: the import succeeds, the input model exists with a nonzero byte
count, the external routine returns normally, and the output model exists
afterwards (so that its size query returns). -/
def runSucceeds (env : Env) : Prop :=
  env.importOk = true ∧
  (∃ n, env.fs (input_model env.root) = some n ∧ n ≠ 0) ∧
  (∃ u, env.quantResult = Except.ok u) ∧
  (∃ m, env.fsAfter (output_model env.root) = some m)

/-- Project root used by the concrete test environments. -/
def testRoot : String := "repo"

/-- A file system holding exactly one file of the given size. -/
def mkFs (path : String) (n : Nat) : String → Option Nat :=
  fun p => if p = path then some n else none

/-- An empty file system. -/
def noFs : String → Option Nat := fun _ => none

/-- Error text used by test environments whose quantization call raises. -/
def boomMsg : String := "boom"

/-- Environment in which the library import fails and the input model is
absent. -/
def envNoImportNoFile : Env :=
  { root := testRoot, importOk := false, fs := noFs,
    quantResult := Except.error boomMsg, fsAfter := noFs }

/-- Environment in which the library import succeeds but the input model
is absent. -/
def envNoFile : Env :=
  { root := testRoot, importOk := true, fs := noFs,
    quantResult := Except.error boomMsg, fsAfter := noFs }

/-- Environment in which quantization succeeds but produces an output
file larger than the input (1 MiB in, 2 MiB out). -/
def envBigger : Env :=
  { root := testRoot, importOk := true,
    fs := mkFs (input_model testRoot) 1048576,
    quantResult := Except.ok (),
    fsAfter := mkFs (output_model testRoot) 2097152 }

/-- Environment in which quantization succeeds and halves the file
(1 MiB in, 512 KiB out). -/
def envSmaller : Env :=
  { root := testRoot, importOk := true,
    fs := mkFs (input_model testRoot) 1048576,
    quantResult := Except.ok (),
    fsAfter := mkFs (output_model testRoot) 524288 }

/-- Environment for the reduction formula: 2 MiB in, 1 MiB out. -/
def envHalved : Env :=
  { root := testRoot, importOk := true,
    fs := mkFs (input_model testRoot) 2097152,
    quantResult := Except.ok (),
    fsAfter := mkFs (output_model testRoot) 1048576 }

/-- Environment in which the input model is present but the loading of
the library fails. -/
def envNoImportWithFile : Env :=
  { root := testRoot, importOk := false,
    fs := mkFs (input_model testRoot) 7,
    quantResult := Except.error boomMsg, fsAfter := noFs }

/-- Environment in which the quantization call raises. -/
def envQuantRaises : Env :=
  { root := testRoot, importOk := true,
    fs := mkFs (input_model testRoot) 1048576,
    quantResult := Except.error boomMsg, fsAfter := noFs }

/-- Environment whose input model is present but empty (zero bytes),
with a quantization call that succeeds and produces an output file. -/
def envZeroByteInput : Env :=
  { root := testRoot, importOk := true,
    fs := mkFs (input_model testRoot) 0,
    quantResult := Except.ok (),
    fsAfter := mkFs (output_model testRoot) 300 }

/-- A string is always contained in a string that extends it on the
left. -/
theorem strContains_append_left (a b : String) : strContains (a ++ b) b := by
  refine ⟨a.data, [], ?_⟩
  simp [String.data_append]

/-- The input size in megabytes is zero exactly when the byte count is
zero: the byte-count test in the embedding of the zero-division raise
coincides with the float condition of the source. -/
theorem input_size_eq_zero_iff (n : Nat) :
    (n : ℚ) / (1024 * 1024) = 0 ↔ n = 0 := by
  rw [div_eq_zero_iff]
  norm_num

/-- The resolved output path differs from the resolved input path for
every project root, because the two file names have different lengths. -/
theorem output_model_ne_input_model (root : String) :
    output_model root ≠ input_model root := by
  intro h
  have hl := congrArg String.length h
  simp [output_model, input_model, String.length_append] at hl
  exact absurd hl (by decide)

/-- C1: for every run, the process exit code is 0 or 1, and it is 0
exactly when the run succeeds; the runs that exit 1 are exactly those in
which the library import fails, the input model is absent, or the guarded
quantization step fails (the routine raising, the output size query
failing because the output file is absent, or the zero-size division
error). -/
theorem exit_code_zero_or_one_and_zero_iff_success (env : Env) :
    ((main env).exitCode = 0 ∨ (main env).exitCode = 1) ∧
    ((main env).exitCode = 0 ↔ runSucceeds env) := by
  obtain ⟨root, importOk, fs, quantResult, fsAfter⟩ := env
  cases importOk with
  | false => simp [main, runSucceeds]
  | true =>
    cases hin : fs (input_model root) with
    | none => simp [main, runSucceeds, hin]
    | some n =>
      cases hq : quantResult with
      | error e => simp [main, runSucceeds, hin, hq]
      | ok u =>
        cases hout : fsAfter (output_model root) with
        | none => simp [main, runSucceeds, hin, hq, hout]
        | some m =>
          rcases Nat.eq_zero_or_pos n with hn | hn
          · subst hn
            simp [main, runSucceeds, hin, hq, hout]
          · simp [main, runSucceeds, hin, hq, hout, Nat.pos_iff_ne_zero.mp hn]

/-- C2 counterexample: a run in which the input model is absent but the
library import also fails exits non-zero without printing the input
path anywhere in its output. -/
theorem missing_input_without_import_prints_no_path :
    (main envNoImportNoFile).exitCode = 1 ∧
    ¬ outputContains (main envNoImportNoFile)
        (input_model envNoImportNoFile.root) := by
  decide

/-- C2 (amended): for every run in which the library import succeeds and
the input model file does not exist at the resolved input path, the
program exits non-zero and its printed output contains the expected
input file path together with the download URL and the target
directory. -/
theorem missing_input_prints_path_when_import_ok (env : Env)
    (h1 : env.importOk = true)
    (h2 : env.fs (input_model env.root) = none) :
    (main env).exitCode = 1 ∧
    outputContains (main env) (input_model env.root) ∧
    outputContains (main env) downloadUrl ∧
    outputContains (main env) (models_dir env.root) := by
  have hout : (main env).output =
      ["❌ Input model not found: " ++ input_model env.root,
       "\nPlease download the model first:",
       "1. Go to: " ++ downloadUrl,
       "2. Download: comictextdetector.pt.onnx",
       "3. Place it in: " ++ models_dir env.root] := by
    simp [main, h1, h2]
  have hexit : (main env).exitCode = 1 := by
    simp [main, h1, h2]
  unfold outputContains
  refine ⟨hexit,
    ⟨"❌ Input model not found: " ++ input_model env.root, ?_,
      strContains_append_left _ _⟩,
    ⟨"1. Go to: " ++ downloadUrl, ?_, strContains_append_left _ _⟩,
    ⟨"3. Place it in: " ++ models_dir env.root, ?_,
      strContains_append_left _ _⟩⟩ <;>
  · rw [hout]
    simp

/-- C2 witness: the amended statement evaluated in the environment where
the library loads and the file system is empty. -/
theorem missing_input_prints_path_witness :
    (main envNoFile).exitCode = 1 ∧
    outputContains (main envNoFile) (input_model envNoFile.root) ∧
    outputContains (main envNoFile) downloadUrl ∧
    outputContains (main envNoFile) (models_dir envNoFile.root) :=
  missing_input_prints_path_when_import_ok envNoFile rfl rfl

/-- C7: for every run in which the input model is absent, the external
quantization routine is never invoked, whether or not the import
succeeded. -/
theorem absent_input_no_quant_call (env : Env)
    (h : env.fs (input_model env.root) = none) :
    (main env).calls = [] := by
  cases h1 : env.importOk with
  | false => simp [main, h1]
  | true => simp [main, h1, h]

/-- C7 witness: the statement evaluated on the empty file system. -/
theorem absent_input_no_quant_call_witness :
    envNoFile.fs (input_model envNoFile.root) = none ∧
    (main envNoFile).calls = [] :=
  ⟨rfl, absent_input_no_quant_call envNoFile rfl⟩

/-- C3 counterexample: a run with a valid 1 MiB input file whose
quantization call succeeds but produces a 2 MiB output exits with status
0 while the printed output size exceeds the printed input size; the
script never checks that the output is smaller. -/
theorem successful_quant_may_print_larger_output :
    (main envBigger).exitCode = 0 ∧
    (main envBigger).printedInputMB = some 1 ∧
    (main envBigger).printedOutputMB = some 2 ∧
    ¬ ((2 : ℚ) < 1) := by
  refine ⟨by decide, ?_, ?_, by norm_num⟩ <;>
  · simp [main, envBigger, mkFs]
    norm_num

/-- C3 (amended): for every run in which the import succeeds, the input
model is present with a nonzero byte count, and the quantization call
returns successfully having produced the output file, the program exits
with status 0 and prints the input and output sizes in megabytes; the
printed output size is not guaranteed to be smaller than the printed
input size. -/
theorem successful_quant_exits_zero_prints_sizes (env : Env) (n m : Nat)
    (h1 : env.importOk = true)
    (hn : env.fs (input_model env.root) = some n) (hn0 : n ≠ 0)
    (hq : env.quantResult = Except.ok ())
    (hm : env.fsAfter (output_model env.root) = some m) :
    (main env).exitCode = 0 ∧
    (main env).printedInputMB = some ((n : ℚ) / (1024 * 1024)) ∧
    (main env).printedOutputMB = some ((m : ℚ) / (1024 * 1024)) := by
  refine ⟨?_, ?_, ?_⟩ <;> simp [main, h1, hn, hn0, hq, hm]

/-- C3 witness: the amended statement evaluated where a 1 MiB input is
quantized to 512 KiB. -/
theorem successful_quant_exits_zero_prints_sizes_witness :
    (main envSmaller).exitCode = 0 ∧
    (main envSmaller).printedInputMB = some (((1048576 : Nat) : ℚ) / (1024 * 1024)) ∧
    (main envSmaller).printedOutputMB = some (((524288 : Nat) : ℚ) / (1024 * 1024)) :=
  successful_quant_exits_zero_prints_sizes envSmaller 1048576 524288
    rfl (by decide) (by decide) rfl (by decide)

/-- C4: for every run that exits with status 0, with n the byte size of
the input file and m the byte size of the output file, the percentage
reduction handed to the final print equals
(1 - output_size / input_size) * 100 computed on the sizes in megabytes
exactly as printed, before output formatting rounds it. -/
theorem reduction_matches_formula (env : Env) (n m : Nat)
    (hn : env.fs (input_model env.root) = some n)
    (hm : env.fsAfter (output_model env.root) = some m)
    (h : (main env).exitCode = 0) :
    (main env).printedReduction =
      some ((1 - ((m : ℚ) / (1024 * 1024)) / ((n : ℚ) / (1024 * 1024))) * 100) := by
  cases h1 : env.importOk with
  | false => simp [main, h1] at h
  | true =>
    cases hq : env.quantResult with
    | error e => simp [main, h1, hn, hq] at h
    | ok u =>
      rcases Nat.eq_zero_or_pos n with hn0 | hn0
      · subst hn0
        simp [main, h1, hn, hq, hm] at h
      · simp [main, h1, hn, hq, hm, Nat.pos_iff_ne_zero.mp hn0]

/-- C4 witness: in the environment where a 2 MiB input is quantized to
1 MiB the reported reduction equals the formula value. -/
theorem reduction_matches_formula_witness :
    (main envHalved).exitCode = 0 ∧
    (main envHalved).printedReduction =
      some ((1 - (((1048576 : Nat) : ℚ) / (1024 * 1024)) /
        (((2097152 : Nat) : ℚ) / (1024 * 1024))) * 100) :=
  ⟨by decide,
   reduction_matches_formula envHalved 2097152 1048576
     (by decide) (by decide) (by decide)⟩

/-- C5 counterexample: a run in which the input model is present but the
library import fails performs no quantization call at all, so the
routine is not invoked exactly once in every run with the input file
present. -/
theorem input_present_without_import_no_quant_call :
    (envNoImportWithFile.fs (input_model envNoImportWithFile.root)).isSome = true ∧
    (main envNoImportWithFile).calls = [] ∧
    (main envNoImportWithFile).calls.length ≠ 1 := by
  decide

/-- C5 (amended): for every run in which the library import succeeds and
the input model file exists, the external routine is invoked exactly
once, with the resolved input path, the resolved output path, and the
QUInt8 weight type. -/
theorem quant_called_once_with_fixed_args (env : Env) (n : Nat)
    (h1 : env.importOk = true)
    (hn : env.fs (input_model env.root) = some n) :
    (main env).calls =
      [⟨input_model env.root, output_model env.root, QuantType.QUInt8⟩] := by
  cases hq : env.quantResult with
  | error e => simp [main, h1, hn, hq]
  | ok u =>
    cases hout : env.fsAfter (output_model env.root) with
    | none => simp [main, h1, hn, hq, hout]
    | some m =>
      rcases Nat.eq_zero_or_pos n with hn0 | hn0
      · subst hn0
        simp [main, h1, hn, hq, hout]
      · simp [main, h1, hn, hq, hout, Nat.pos_iff_ne_zero.mp hn0]

/-- C5 witness: the amended statement evaluated where the quantization
call raises; the single invocation still happened with the fixed
arguments. -/
theorem quant_called_once_with_fixed_args_witness :
    envQuantRaises.fs (input_model envQuantRaises.root) = some 1048576 ∧
    (main envQuantRaises).calls =
      [⟨input_model envQuantRaises.root, output_model envQuantRaises.root,
        QuantType.QUInt8⟩] :=
  ⟨by decide,
   quant_called_once_with_fixed_args envQuantRaises 1048576 rfl (by decide)⟩

/-- C6: for every run in which the routine is invoked and raises, the
program exits with status 1 and the exception text appears verbatim
inside the printed output. -/
theorem quant_error_text_printed_and_exit_one (env : Env) (n : Nat) (e : String)
    (h1 : env.importOk = true)
    (hn : env.fs (input_model env.root) = some n)
    (hq : env.quantResult = Except.error e) :
    (main env).exitCode = 1 ∧ outputContains (main env) e := by
  have hout : (main env).output =
      ["📥 Input model: " ++ input_model env.root,
       "\n⏳ Quantizing model (this may take a few minutes)...",
       "\n❌ Quantization failed: " ++ e] := by
    simp [main, h1, hn, hq]
  refine ⟨by simp [main, h1, hn, hq], ?_⟩
  unfold outputContains
  exact ⟨"\n❌ Quantization failed: " ++ e, by rw [hout]; simp,
    strContains_append_left _ _⟩

/-- C6 witness: the statement evaluated where the quantization call
raises with a fixed message. -/
theorem quant_error_text_printed_witness :
    (main envQuantRaises).exitCode = 1 ∧
    outputContains (main envQuantRaises) boomMsg :=
  quant_error_text_printed_and_exit_one envQuantRaises 1048576 boomMsg
    rfl (by decide) rfl

/-- C8: in every run, every file-system operation the script itself
performs is non-mutating (an existence check or a size query), and no
quantization call directs its output at the input path, so the input
model file is only ever read. -/
theorem script_never_mutates_input (env : Env) :
    ((main env).fsOps.all fun op => !op.mutates) = true ∧
    ((main env).calls.all fun c => c.model_output != input_model env.root) = true := by
  obtain ⟨root, importOk, fs, quantResult, fsAfter⟩ := env
  have hne : (output_model root != input_model root) = true := by
    simp [bne_iff_ne]
    exact output_model_ne_input_model root
  cases importOk with
  | false => simp [main, FsOp.mutates]
  | true =>
    cases hin : fs (input_model root) with
    | none => simp [main, hin, FsOp.mutates]
    | some n =>
      cases hq : quantResult with
      | error e => simp [main, hin, hq, FsOp.mutates, hne]
      | ok u =>
        cases hout : fsAfter (output_model root) with
        | none => simp [main, hin, hq, hout, FsOp.mutates, hne]
        | some m =>
          rcases Nat.eq_zero_or_pos n with hn0 | hn0
          · subst hn0
            simp [main, hin, hq, hout, FsOp.mutates, hne]
          · simp [main, hin, hq, hout, FsOp.mutates, hne,
              Nat.pos_iff_ne_zero.mp hn0]

/-- C9: for every run that exits with status 0, the output model file
exists in the file system at process termination: the success branch is
only reached after the size query of the output file returned. -/
theorem exit_zero_implies_output_exists (env : Env)
    (h : (main env).exitCode = 0) :
    ((main env).finalFs (output_model env.root)).isSome = true := by
  cases h1 : env.importOk with
  | false => simp [main, h1] at h
  | true =>
    cases hin : env.fs (input_model env.root) with
    | none => simp [main, h1, hin] at h
    | some n =>
      cases hq : env.quantResult with
      | error e => simp [main, h1, hin, hq] at h
      | ok u =>
        cases hout : env.fsAfter (output_model env.root) with
        | none => simp [main, h1, hin, hq, hout] at h
        | some m =>
          rcases Nat.eq_zero_or_pos n with hn0 | hn0
          · subst hn0
            simp [main, h1, hin, hq, hout] at h
          · simp [main, h1, hin, hq, hout, Nat.pos_iff_ne_zero.mp hn0]

/-- C9 witness: the statement evaluated on the successful 1 MiB to
512 KiB run. -/
theorem exit_zero_implies_output_exists_witness :
    (main envSmaller).exitCode = 0 ∧
    ((main envSmaller).finalFs (output_model envSmaller.root)).isSome = true :=
  ⟨by decide, exit_zero_implies_output_exists envSmaller (by decide)⟩

/-- C10: for every run whose input model exists with zero bytes and
whose quantization call succeeds and produces the output file, the
program exits with status 1 and reports the division-by-zero error as a
quantization failure. -/
theorem zero_byte_input_exits_one (env : Env) (m : Nat)
    (h1 : env.importOk = true)
    (hn : env.fs (input_model env.root) = some 0)
    (hq : env.quantResult = Except.ok ())
    (hm : env.fsAfter (output_model env.root) = some m) :
    (main env).exitCode = 1 ∧ outputContains (main env) zeroDivMsg := by
  have hout : (main env).output =
      ["📥 Input model: " ++ input_model env.root,
       "\n⏳ Quantizing model (this may take a few minutes)...",
       "\n❌ Quantization failed: " ++ zeroDivMsg] := by
    simp [main, h1, hn, hq, hm]
  refine ⟨by simp [main, h1, hn, hq, hm], ?_⟩
  unfold outputContains
  exact ⟨"\n❌ Quantization failed: " ++ zeroDivMsg, by rw [hout]; simp,
    strContains_append_left _ _⟩

/-- C10 witness: the statement evaluated on the zero-byte input
environment. -/
theorem zero_byte_input_exits_one_witness :
    (main envZeroByteInput).exitCode = 1 ∧
    outputContains (main envZeroByteInput) zeroDivMsg :=
  zero_byte_input_exits_one envZeroByteInput 300 rfl (by decide) rfl (by decide)

end QuantizeModel
